import Mathlib

/-
Shallow embedding of the sdxlib Python client library
(src/sdxlib/sdx_client.py, src/sdxlib/sdx_exception.py,
src/sdxlib/sdx_response.py) in Lean 4, together with theorems settling
the specification claims about it.

Conventions of the embedding:
* Python `None` is `Option.none` (for fields typed as optional strings or
  lists) or `PyVal.none` (for dynamically typed slots).
* Python exceptions are modelled by `Except PyErr`: `ValueError` is
  `PyErr.valueError`, `TypeError` is `PyErr.typeError`, and a raised
  `SDXException` is `PyErr.sdxError`.
* The HTTP transport is abstracted by a `NetOutcome` argument describing
  what the single outbound request would observe (a 2xx JSON body, an
  HTTP error status, a timeout, or another transport failure); the
  operations additionally report how many outbound requests they issued.
* Character-level string operations (isdigit, split, strip, int())
  mirror Python semantics on the ASCII strings the library handles;
  Python's Unicode digit classes and int()'s underscore grouping are
  outside the modelled domain.
-/

/-- Dynamically typed Python value, as far as the library observes one. -/
inductive PyVal where
  | none
  | bool (b : Bool)
  | int (n : Int)
  | str (s : String)
  | list (l : List PyVal)
  | dict (entries : List (String × PyVal))
deriving Repr

/-- Python truthiness for the modelled values. -/
def pyTruthy : PyVal → Bool
  | .none => false
  | .bool b => b
  | .int n => n != 0
  | .str s => !s.isEmpty
  | .list l => !l.isEmpty
  | .dict m => !m.isEmpty

/-- Truthiness of a Python variable holding None or a string. -/
def optStrTruthy : Option String → Bool
  | Option.none => false
  | some s => !s.isEmpty

/-- Truthiness of a Python variable holding None or a list. -/
def optListTruthy {α : Type} : Option (List α) → Bool
  | Option.none => false
  | some l => !l.isEmpty

/-- Value of the SDXException class (sdx_exception.py).  `status_code` is a
`PyVal` because two call sites in sdx_client.py pass the message string
positionally, so the string lands in `status_code`; `message` is the value
resolved in `__init__` (every value the library passes or resolves there is
None or a string, hence `Option String`). -/
structure SDXExceptionVal where
  status_code : PyVal
  method_messages : Option (List (Int × String))
  message : Option String
deriving Repr

/-- Python exception channel: ValueError, TypeError, KeyError, or a raised
SDXException. -/
inductive PyErr where
  | valueError (msg : String)
  | typeError (msg : String)
  | keyError (key : String)
  | sdxError (e : SDXExceptionVal)
deriving Repr

/-- Python subscript `v[k]` with a string key: the value for a dict that has
the key, KeyError for a dict that lacks it, and TypeError for every
non-dict. -/
def pySubscriptStr (v : PyVal) (k : String) : Except PyErr PyVal :=
  match v with
  | .dict entries =>
    match entries.lookup k with
    | some x => .ok x
    | Option.none => .error (.keyError k)
  | .list _ => .error (.typeError "list indices must be integers or slices, not str")
  | .str _ => .error (.typeError "string indices must be integers")
  | .none => .error (.typeError "'NoneType' object is not subscriptable")
  | .bool _ => .error (.typeError "'bool' object is not subscriptable")
  | .int _ => .error (.typeError "'int' object is not subscriptable")

/-- Python `method_messages.get(status_code)`: a dict lookup returning None on
a miss; all the tables in the library have int keys, so a non-int
`status_code` never hits. -/
def tableGet (t : List (Int × String)) : PyVal → Option String
  | .int n => t.lookup n
  | _ => Option.none

/-- Truthiness of a Python variable holding None or a dict. -/
def optTableTruthy : Option (List (Int × String)) → Bool
  | Option.none => false
  | some t => !t.isEmpty

/-- SDXException.__init__: stores the arguments and resolves
`self.message = message or (method_messages.get(status_code) if method_messages else "")`. -/
def mkSDXException (status_code : PyVal) (method_messages : Option (List (Int × String)))
    (message : Option String) : SDXExceptionVal :=
  { status_code := status_code
    method_messages := method_messages
    message :=
      if optStrTruthy message then message
      else if optTableTruthy method_messages then
        tableGet (method_messages.getD []) status_code
      else some "" }

/-- Textual form of the exception: `super().__init__(self.message)` makes
`str(e)` equal to `str(self.message)`, which is the message itself for a
string and the literal "None" for Python None. -/
def excText (e : SDXExceptionVal) : String :=
  match e.message with
  | some s => s
  | Option.none => "None"

/-- Whitespace test used by Python str.strip() and int() (ASCII subset). -/
def isPySpace (c : Char) : Bool :=
  c == ' ' || c == '\t' || c == '\n' || c == '\r' || c == '\x0b' || c == '\x0c'

/-- Strip leading and trailing whitespace from a character list. -/
def stripChars (l : List Char) : List Char :=
  ((l.dropWhile isPySpace).reverse.dropWhile isPySpace).reverse

/-- Python str.strip(). -/
def pyStrip (s : String) : String := String.mk (stripChars s.data)

/-- Python str.isdigit() on the ASCII strings the library handles: nonempty
and all characters are decimal digits. -/
def pyIsDigit (s : String) : Bool := !s.data.isEmpty && s.data.all Char.isDigit

/-- Numeric value of a list of decimal digit characters. -/
def natOfDigits (l : List Char) : Nat :=
  l.foldl (fun n c => 10 * n + (c.toNat - 48)) 0

/-- Python int() on a string (given as characters): optional surrounding
whitespace, an optional sign, then at least one decimal digit; anything else
raises ValueError, modelled as `Option.none`. -/
def pyIntChars (l : List Char) : Option Int :=
  let t := stripChars l
  if t.head? = some '-' then
    if !t.tail.isEmpty && t.tail.all Char.isDigit then some (-(natOfDigits t.tail : Int))
    else Option.none
  else if t.head? = some '+' then
    if !t.tail.isEmpty && t.tail.all Char.isDigit then some (natOfDigits t.tail : Int)
    else Option.none
  else if !t.isEmpty && t.all Char.isDigit then some (natOfDigits t : Int)
  else Option.none

/-- Python `str.split(":")` on a character list: the separators are removed
and empty pieces are kept, so the result always has (number of colons + 1)
pieces. -/
def splitOnColon : List Char → List (List Char)
  | [] => [[]]
  | c :: cs =>
    if c = ':' then [] :: splitOnColon cs
    else
      match splitOnColon cs with
      | [] => [[c]]
      | p :: ps => (c :: p) :: ps

/-- Python `":" in s`. -/
def containsColon (s : String) : Bool := s.data.any (fun c => c == ':')

/-- Character class `[a-zA-Z0-9.,-_\/]` of PORT_ID_PATTERN.  Inside a regex
class, `,-_` is a range (codes 44 to 95), so the class denotes codes 44..95
together with the lowercase letters (a-z, codes 97..122); `a-zA-Z0-9.` and
`\/` are subsumed by those two intervals. -/
def portChar (c : Char) : Bool :=
  (44 ≤ c.toNat && c.toNat ≤ 95) || (97 ≤ c.toNat && c.toNat ≤ 122)

/-- Test for `re.match(PORT_ID_PATTERN, s)` with pattern
`^urn:sdx:port:[class]+:[class]+:[class]+$`.  Because `:` itself belongs to
the class, the pattern matches exactly the strings `"urn:sdx:port:" ++ rest`
where `rest` consists of class characters and can be cut at two colons
leaving three nonempty segments. -/
def matchPortId (s : String) : Bool :=
  let l := s.data
  let pre := ("urn:sdx:port:").data
  (l.take 13 == pre) &&
    (let rest := l.drop 13
     !rest.isEmpty && rest.all portChar &&
       (List.range rest.length).any (fun i =>
         (List.range rest.length).any (fun j =>
           decide (1 ≤ i) && decide (i + 2 ≤ j) && decide (j + 2 ≤ rest.length) &&
             (rest.getD i ' ' == ':') && (rest.getD j ' ' == ':'))))

/-- Test for `re.match(r"^\S+@\S+$", s)`: no whitespace anywhere, and some
`@` that is neither the first nor the last character. -/
def matchEmail (s : String) : Bool :=
  let l := s.data
  l.all (fun c => !c.isWhitespace) &&
    (List.range l.length).any (fun i =>
      decide (1 ≤ i) && decide (i + 2 ≤ l.length) && (l.getD i ' ' == '@'))

/-- One endpoint dictionary `{"port_id": ..., "vlan": ...}`.  The code treats
a missing key and an empty value identically, so the empty string models
both. -/
structure Endpoint where
  port_id : String
  vlan : String
deriving Repr, DecidableEq

/-- One notification dictionary `{"email": ...}`. -/
structure Notification where
  email : String
deriving Repr, DecidableEq

/-- Special VLAN literals accepted verbatim. -/
def specialVlans : List String := ["any", "all", "untagged"]

/-- Message raised when a range VLAN fails to parse or is out of bounds (the
bounds raise is swallowed by the surrounding except clause, see
`vlanRangeTry`). -/
def rangeFormatMsg (v : String) : String :=
  "Invalid VLAN range format: '" ++ v ++ "'. Must be 'VLAN ID1:VLAN ID2'."

/-- Message raised when a range VLAN does not split into exactly two pieces. -/
def rangeValuesMsg (v : String) : String :=
  "Invalid VLAN range values: '" ++ v ++ "'. Must be 'VLAN ID1:VLAN ID2'."

/-- Body of the `try:` block of the range-VLAN branch: parse both pieces with
int() and check `1 <= vlan_id1 < vlan_id2 <= 4095`, raising ValueError (whose
message the caller discards) on a parse failure or a bounds violation. -/
def vlanRangeTry : List (List Char) → Except String Unit
  | [p1, p2] =>
    match pyIntChars p1, pyIntChars p2 with
    | some n1, some n2 =>
      if 1 ≤ n1 ∧ n1 < n2 ∧ n2 ≤ 4095 then .ok ()
      else .error "Invalid VLAN range values: out of bounds"
    | _, _ => .error "invalid literal for int() with base 10"
  | _ => .error "unreachable: guarded by the length check"

/-- VLAN validation of `_validate_endpoint_dict` (the part after the
presence and type checks). -/
def validateVlan (v : String) : Except PyErr Unit :=
  if v ∈ specialVlans then .ok ()
  else if pyIsDigit v then
    let n := natOfDigits v.data
    if 1 ≤ n ∧ n ≤ 4095 then .ok ()
    else .error (.valueError ("Invalid VLAN value: '" ++ v ++ "'. Must be between 1 and 4095."))
  else if containsColon v then
    let parts := splitOnColon v.data
    if parts.length ≠ 2 then .error (.valueError (rangeValuesMsg v))
    else
      match vlanRangeTry parts with
      | .ok () => .ok ()
      | .error _ => .error (.valueError (rangeFormatMsg v))
  else
    .error (.valueError ("Invalid VLAN value: '" ++ v ++ "'. Must be 'any', 'all', 'untagged', a string representing an integer between 1 and 4095, or a range."))

/-- SDXClient._validate_endpoint_dict.  The `isinstance` branches (non-dict
endpoint, non-string VLAN) are outside this typed embedding. -/
def validate_endpoint_dict (e : Endpoint) : Except PyErr Endpoint :=
  if e.port_id = "" then
    .error (.valueError "Each endpoint must contain a non-empty 'port_id' key.")
  else if matchPortId e.port_id = false then
    .error (.valueError ("Invalid port_id format: " ++ e.port_id))
  else if e.vlan = "" then
    .error (.valueError "Each endpoint must contain a non-empty 'vlan' key.")
  else
    match validateVlan e.vlan with
    | .ok () => .ok e
    | .error pe => .error pe

/-- Python set insertion (membership and cardinality are all the code
observes). -/
def setAdd (s : List String) (x : String) : List String :=
  if x ∈ s then s else x :: s

/-- Mutable local state of `_validate_endpoints`' loop. -/
structure VSt where
  vlans : List String
  vlan_ranges : List String
  has_vlan_range : Bool
  has_single_vlan : Bool
  has_special_vlan : Bool
  has_any_untagged : Bool
deriving Repr

/-- Initial loop state of `_validate_endpoints`. -/
def initVSt : VSt := ⟨[], [], false, false, false, false⟩

/-- Per-endpoint classification of `endpoint["vlan"]` inside the loop of
`_validate_endpoints`. -/
def classify (st : VSt) (v : String) : VSt :=
  if v ∈ specialVlans then
    let st1 := { st with vlans := setAdd st.vlans v }
    if v = "any" ∨ v = "untagged" then { st1 with has_any_untagged := true }
    else { st1 with has_special_vlan := true }
  else if pyIsDigit v then
    { st with has_single_vlan := true, vlans := setAdd st.vlans v }
  else if containsColon v then
    { st with vlan_ranges := setAdd st.vlan_ranges v, has_vlan_range := true }
  else st

/-- Message of the cross-endpoint VLAN consistency rule. -/
def consistencyMsg : String :=
  "All endpoints must have the same VLAN value if one endpoint is 'all' or a range."

/-- Consistency condition checked after each endpoint; both `raise`
statements in the loop use `consistencyMsg`, so they are folded into one
test. -/
def checkVSt (st : VSt) : Bool :=
  (st.has_vlan_range &&
    (decide (1 < st.vlan_ranges.length) || st.has_single_vlan || st.has_special_vlan ||
      st.has_any_untagged)) ||
  (st.has_special_vlan &&
    (decide (1 < st.vlans.length) || st.has_single_vlan || st.has_vlan_range))

/-- Loop of `_validate_endpoints`: validate each endpoint, classify its VLAN,
and raise on the first consistency violation. -/
def validateEndpointsGo (st : VSt) (acc : List Endpoint) :
    List Endpoint → Except PyErr (List Endpoint)
  | [] => .ok acc
  | e :: rest =>
    match validate_endpoint_dict e with
    | .error pe => .error pe
    | .ok ve =>
      let st1 := classify st e.vlan
      if checkVSt st1 then .error (.valueError consistencyMsg)
      else validateEndpointsGo st1 (acc ++ [ve]) rest

/-- SDXClient._validate_endpoints.  The `isinstance(endpoints, list)` branch
is outside this typed embedding. -/
def validate_endpoints (v : Option (List Endpoint)) : Except PyErr (List Endpoint) :=
  match v with
  | Option.none => .ok []
  | some l =>
    if l.length < 2 then .error (.valueError "Endpoints must contain at least 2 entries.")
    else validateEndpointsGo initVSt [] l

/-- Loop of `_validate_notifications`: each entry's email must match the
email pattern (the non-dict and missing-key branches are outside this typed
embedding). -/
def notificationsGo : List Notification → Except PyErr Unit
  | [] => .ok ()
  | n :: rest =>
    if matchEmail n.email then notificationsGo rest
    else .error (.valueError ("Invalid email address or email format: " ++ n.email))

/-- SDXClient._validate_notifications. -/
def validate_notifications (v : Option (List Notification)) :
    Except PyErr (Option (List Notification)) :=
  match v with
  | Option.none => .ok Option.none
  | some l =>
    if 10 < l.length then
      .error (.valueError "Notifications can contain at most 10 email addresses.")
    else
      match notificationsGo l with
      | .error pe => .error pe
      | .ok () => .ok (some l)

/-- Key of the create-request cache: `(name, tuple of endpoint port_ids)`. -/
abbrev CacheKey := String × List String

/-- JSON payload built by create_l2vpn: `{name, endpoints}` plus each
optional attribute when truthy. -/
structure Payload where
  name : String
  endpoints : List Endpoint
  description : Option String
  notifications : Option (List Notification)
  scheduling : PyVal
  qos_metrics : PyVal
deriving Repr

/-- State of one SDXClient instance.  `scheduling` and `qos_metrics` are kept
as dynamic values because the constructor stores them unvalidated. -/
structure SDXClient where
  base_url : Option String
  name : Option String
  endpoints : Option (List Endpoint)
  description : Option String
  notifications : Option (List Notification)
  scheduling : PyVal
  qos_metrics : PyVal
  request_cache : List (CacheKey × (Payload × PyVal))
deriving Repr

/-- SDXClient.__init__: only `notifications` goes through validation; every
other argument is written directly to backing storage; the request cache
starts empty. -/
def mkSDXClient (base_url name : Option String) (endpoints : Option (List Endpoint))
    (description : Option String) (notifications : Option (List Notification))
    (scheduling qos_metrics : PyVal) : Except PyErr SDXClient :=
  match validate_notifications notifications with
  | .error pe => .error pe
  | .ok vn =>
    .ok { base_url := base_url, name := name, endpoints := endpoints,
          description := description, notifications := vn,
          scheduling := scheduling, qos_metrics := qos_metrics,
          request_cache := [] }

/-- Message of the name setter. -/
def nameMsg : String := "Name must be a non-empty string with maximum 50 characters."

/-- Name setter: rejects any non-None value that is not a string, is blank
after strip(), or is longer than 50 characters; None and valid strings are
stored. -/
def set_name (c : SDXClient) (v : PyVal) : Except PyErr SDXClient :=
  match v with
  | .none => .ok { c with name := Option.none }
  | .str s =>
    if (pyStrip s).isEmpty || 50 < s.length then .error (.valueError nameMsg)
    else .ok { c with name := some s }
  | _ => .error (.valueError nameMsg)

/-- Endpoints setter:
`self._endpoints = self._validate_endpoints(value) if value else None`,
so a falsy value (None or the empty list) silently stores None. -/
def set_endpoints (c : SDXClient) (v : Option (List Endpoint)) : Except PyErr SDXClient :=
  if optListTruthy v then
    match validate_endpoints v with
    | .error pe => .error pe
    | .ok ve => .ok { c with endpoints := some ve }
  else .ok { c with endpoints := Option.none }

/-- Python str.lower() (ASCII). -/
def pyLower (s : String) : String := String.mk (s.data.map Char.toLower)

/-- Outcome the single outbound HTTP request of an operation would observe:
a 2xx response with a JSON body, a raise_for_status HTTPError with a status
code, a Timeout, or another RequestException with its message. -/
inductive NetOutcome where
  | success (body : PyVal)
  | httpError (status : Int)
  | timeout
  | requestError (detail : String)
deriving Repr

/-- Per-status message table of create_l2vpn. -/
def createTable : List (Int × String) :=
  [(201, "L2VPN Service Created"),
   (400, "Request does not have a valid JSON or body is incomplete/incorrect"),
   (401, "Not Authorized"),
   (402, "Request not compatible (e.g., P2MP L2VPN requested, but only P2P supported)"),
   (409, "L2VPN Service already exists"),
   (410, "Can't fulfill the strict QoS requirements"),
   (411, "Scheduling not possible"),
   (422, "Attribute not supported by the SDX-LC/OXPO")]

/-- Payload create_l2vpn builds: `{name, endpoints}` plus each optional
attribute if it is truthy. -/
def createPayload (c : SDXClient) : Payload :=
  { name := c.name.getD ""
    endpoints := c.endpoints.getD []
    description := if optStrTruthy c.description then c.description else Option.none
    notifications := if optListTruthy c.notifications then c.notifications else Option.none
    scheduling := if pyTruthy c.scheduling then c.scheduling else PyVal.none
    qos_metrics := if pyTruthy c.qos_metrics then c.qos_metrics else PyVal.none }

/-- Cache key create_l2vpn computes:
`(self._name, tuple(endpoint["port_id"] for endpoint in self._endpoints))`. -/
def createCacheKey (c : SDXClient) : CacheKey :=
  (c.name.getD "", (c.endpoints.getD []).map (fun e => e.port_id))

/-- Python dict assignment `self._request_cache[cache_key] = cached_data`:
the new binding shadows any earlier one under `List.lookup`. -/
def cacheInsert (m : List (CacheKey × (Payload × PyVal))) (k : CacheKey)
    (v : Payload × PyVal) : List (CacheKey × (Payload × PyVal)) :=
  (k, v) :: m

/-- SDXClient.create_l2vpn.  Returns the Python result (or raise), the new
client state, and the number of outbound POST requests issued (0 or 1).
A cached entry is a nonempty tuple, hence always truthy, so a cache hit
returns its stored `response_json` with no request.  On a 2xx response the
cache is written first, then the info log's f-string eagerly evaluates
`response_json['service_id']` (regardless of logger level), so a body that
is not a dict carrying that key raises KeyError/TypeError after caching
instead of returning.  The defensive `isinstance(self._endpoints, list)`
re-check cannot fire in this typed embedding. -/
def create_l2vpn (c : SDXClient) (net : NetOutcome) :
    (Except PyErr PyVal) × SDXClient × Nat :=
  if !(optStrTruthy c.base_url && optStrTruthy c.name && optListTruthy c.endpoints) then
    (.error (.valueError "Creating L2VPN requires the base URL, name, and endpoints at minumum."),
      c, 0)
  else
    let payload := createPayload c
    let cache_key := createCacheKey c
    match List.lookup cache_key c.request_cache with
    | some cached => (.ok cached.2, c, 0)
    | Option.none =>
      match net with
      | .success body =>
        let c1 := { c with request_cache := cacheInsert c.request_cache cache_key (payload, body) }
        (match pySubscriptStr body "service_id" with
          | .ok _ => (.ok body, c1, 1)
          | .error pe => (.error pe, c1, 1))
      | .httpError code =>
        let error_message := (createTable.lookup code).getD "Unknown error occurred."
        (.error (.sdxError (mkSDXException (.int code) (some createTable) (some error_message))),
          c, 1)
      | .timeout =>
        (.error (.sdxError (mkSDXException PyVal.none Option.none
          (some "The request to create the L2VPN timed out."))), c, 1)
      | .requestError d =>
        (.error (.sdxError (mkSDXException PyVal.none Option.none
          (some ("An error occurred while creating L2VPN: " ++ d)))), c, 1)

/-- Per-status message table of update_l2vpn. -/
def updateTable : List (Int × String) :=
  [(201, "L2VPN Service Modified"),
   (400, "Request does not have a valid JSON or body is incomplete/incorrect"),
   (401, "Not Authorized"),
   (402, "Request not compatible (e.g., P2MP L2VPN requested, but only P2P supported)"),
   (404, "L2VPN Service ID not found"),
   (409, "Conflicts with a different L2VPN"),
   (410, "Can't fulfill the strict QoS requirements"),
   (411, "Scheduling not possible")]

/-- Optional keyword arguments of update_l2vpn other than `state`; each is
copied into the payload verbatim when not None, with no re-validation, so
they stay dynamically typed. -/
structure UpdateArgs where
  state : Option String
  name : PyVal
  endpoints : PyVal
  description : PyVal
  notifications : PyVal
  scheduling : PyVal
  qos_metrics : PyVal
deriving Repr

/-- Payload update_l2vpn sends: `{"service_id": ...}` plus the lowercased
state (if supplied) and each non-None optional attribute. -/
structure UpdatePayload where
  service_id : String
  state : Option String
  name : PyVal
  endpoints : PyVal
  description : PyVal
  notifications : PyVal
  scheduling : PyVal
  qos_metrics : PyVal
deriving Repr

/-- SDXClient.update_l2vpn.  Note both the Timeout and the RequestException
handlers construct the SDXException with the message string as the first
positional argument, which is the `status_code` parameter, so the resolved
`message` attribute of the raised exception is the empty string. -/
def update_l2vpn (c : SDXClient) (service_id : String) (args : UpdateArgs)
    (net : NetOutcome) : Except PyErr PyVal :=
  match
    (match args.state with
     | Option.none => Except.ok (Option.none : Option String)
     | some st =>
       if pyLower st = "enabled" ∨ pyLower st = "disabled" then Except.ok (some (pyLower st))
       else Except.error (PyErr.valueError
         "Invalid state value. The 'state' attribute can only by changed to 'enabled' or 'disabled'.")) with
  | .error pe => .error pe
  | .ok state1 =>
    let _payload : UpdatePayload :=
      { service_id := service_id, state := state1, name := args.name,
        endpoints := args.endpoints, description := args.description,
        notifications := args.notifications, scheduling := args.scheduling,
        qos_metrics := args.qos_metrics }
    match net with
    | .success body => .ok body
    | .httpError code =>
      let error_message := (updateTable.lookup code).getD "Unknown error occurred."
      .error (.sdxError (mkSDXException (.int code) (some updateTable) (some error_message)))
    | .timeout =>
      .error (.sdxError (mkSDXException
        (PyVal.str "The request to create the L2VPN timed out.") Option.none Option.none))
    | .requestError d =>
      .error (.sdxError (mkSDXException
        (PyVal.str ("Failed to update L2VPN: " ++ d)) Option.none Option.none))

/-- Per-status message table of delete_l2vpn. -/
def deleteTable : List (Int × String) :=
  [(201, "L2VPN Deleted"),
   (401, "Not Authorized"),
   (404, "L2VPN Service ID provided does not exist")]

/-- Outcome the outbound DELETE request would observe.  On an HTTP error the
code reads exactly one thing from the response body:
`response.json().get("description", "Unknown error")`, modelled by the
optional `description` field. -/
inductive DelNet where
  | success (hasContent : Bool) (body : PyVal)
  | httpError (status : Int) (description : Option String)
  | timeout
  | requestError (detail : String)
deriving Repr

/-- SDXClient.delete_l2vpn.  On an HTTP error the exception is constructed
with `message=error_msg` (the description or "Unknown error"), so the fixed
table is only carried in `method_messages`.  The Timeout handler passes the
message positionally (it becomes `status_code`).  The RequestException
handler executes `SDXException("Failed to delete L2VPN", cause=e)`, and
`__init__` has no `cause` parameter, so that branch raises TypeError. -/
def delete_l2vpn (c : SDXClient) (service_id : String) (net : DelNet) :
    Except PyErr (Option PyVal) :=
  match net with
  | .success hasContent body => .ok (if hasContent then some body else Option.none)
  | .httpError code description =>
    let error_msg := description.getD "Unknown error"
    .error (.sdxError (mkSDXException (.int code) (some deleteTable) (some error_msg)))
  | .timeout =>
    .error (.sdxError (mkSDXException
      (PyVal.str "The request to create the L2VPN timed out.") Option.none Option.none))
  | .requestError _ =>
    .error (.typeError "__init__() got an unexpected keyword argument 'cause'")

/-- Service descriptor parsed by SDXResponse.__init__; each attribute holds
`response_json.get(key)`, which is `PyVal.none` when the key is absent. -/
structure SDXResponseVal where
  service_id : PyVal
  name : PyVal
  endpoints : PyVal
  description : PyVal
  notifications : PyVal
  qos_metrics : PyVal
  ownership : PyVal
  creation_date : PyVal
  archived_date : PyVal
  status : PyVal
  state : PyVal
  counters_location : PyVal
  last_modified : PyVal
  current_path : PyVal
  oxp_service_ids : PyVal
deriving Repr

/-- Python `response_json.get(key)`: None when the key is absent. -/
def dictGet (entries : List (String × PyVal)) (k : String) : PyVal :=
  (entries.lookup k).getD PyVal.none

/-- SDXResponse.__init__: any non-dict input raises TypeError; a dict is read
field by field with `.get`, so a missing key never raises and leaves the
field as None. -/
def parseSDXResponse (v : PyVal) : Except PyErr SDXResponseVal :=
  match v with
  | .dict entries =>
    .ok { service_id := dictGet entries "service_id"
          name := dictGet entries "name"
          endpoints := dictGet entries "endpoints"
          description := dictGet entries "description"
          notifications := dictGet entries "notifications"
          qos_metrics := dictGet entries "qos_metrics"
          ownership := dictGet entries "ownership"
          creation_date := dictGet entries "creation_date"
          archived_date := dictGet entries "archived_date"
          status := dictGet entries "status"
          state := dictGet entries "state"
          counters_location := dictGet entries "counters_location"
          last_modified := dictGet entries "last_modified"
          current_path := dictGet entries "current_path"
          oxp_service_ids := dictGet entries "oxp_service_ids" }
  | _ => .error (.typeError "Expected a dictionary response_json.")

/-- Category of a VLAN string in `_validate_endpoints`' classification:
the special value "any" or "untagged". -/
def isAnyUntaggedV (v : String) : Bool := v == "any" || v == "untagged"

/-- Category: the special value "all". -/
def isAllV (v : String) : Bool := v == "all"

/-- Category: one of the three special VLAN literals. -/
def isSpecialV (v : String) : Bool := isAnyUntaggedV v || isAllV v

/-- Category: a digit string (and not a special literal, which none of the
special literals is anyway). -/
def isDigitV (v : String) : Bool := !isSpecialV v && pyIsDigit v

/-- Category: a range-shaped string (contains a colon and is neither special
nor a digit string). -/
def isRangeV (v : String) : Bool := !isSpecialV v && !pyIsDigit v && containsColon v

/-- Category: a VLAN the loop adds to its `vlans` set (special or digit). -/
def isCollectedV (v : String) : Bool := isSpecialV v || isDigitV v

/-- Loop state reached after classifying every endpoint of a list. -/
def foldVSt (st : VSt) (l : List Endpoint) : VSt :=
  l.foldl (fun s e => classify s e.vlan) st

/-- Growth order on loop states: flags only get set and the two sets only
grow, which is what makes the per-iteration consistency check equivalent to
checking the final state. -/
def stLE (s t : VSt) : Prop :=
  (s.has_vlan_range = true → t.has_vlan_range = true) ∧
  (s.has_single_vlan = true → t.has_single_vlan = true) ∧
  (s.has_special_vlan = true → t.has_special_vlan = true) ∧
  (s.has_any_untagged = true → t.has_any_untagged = true) ∧
  s.vlans.length ≤ t.vlans.length ∧
  s.vlan_ranges.length ≤ t.vlan_ranges.length

/-- Field-by-field view of a parsed service descriptor, pairing each JSON key
with the attribute populated from it. -/
def responseFields (r : SDXResponseVal) : List (String × PyVal) :=
  [("service_id", r.service_id), ("name", r.name), ("endpoints", r.endpoints),
   ("description", r.description), ("notifications", r.notifications),
   ("qos_metrics", r.qos_metrics), ("ownership", r.ownership),
   ("creation_date", r.creation_date), ("archived_date", r.archived_date),
   ("status", r.status), ("state", r.state),
   ("counters_location", r.counters_location), ("last_modified", r.last_modified),
   ("current_path", r.current_path), ("oxp_service_ids", r.oxp_service_ids)]

/-- Fixture endpoint with VLAN "100". -/
def epA : Endpoint := { port_id := "urn:sdx:port:a:b:c", vlan := "100" }

/-- Fixture endpoint with VLAN "200". -/
def epB : Endpoint := { port_id := "urn:sdx:port:a:b:d", vlan := "200" }

/-- Fixture client with base_url, name and a two-endpoint list set. -/
def clientA : SDXClient :=
  { base_url := some "http://example.com", name := some "Test L2VPN",
    endpoints := some [epA, epB], description := Option.none,
    notifications := Option.none, scheduling := PyVal.none,
    qos_metrics := PyVal.none, request_cache := [] }

/-- Fixture name of exactly 51 characters. -/
def name51 : String := String.mk (List.replicate 51 'a')

/-- Fixture name of exactly 50 characters. -/
def name50 : String := String.mk (List.replicate 50 'a')

/-- Fixture notification list with 11 entries. -/
def notif11 : List Notification := List.replicate 11 { email := "user@example.com" }

/-- Fixture client produced by the constructor from a 51-character name and a
one-element endpoint list (which the constructor stores unvalidated). -/
def client51 : SDXClient :=
  { base_url := some "http://example.com", name := some name51,
    endpoints := some [epA], description := Option.none,
    notifications := Option.none, scheduling := PyVal.none,
    qos_metrics := PyVal.none, request_cache := [] }

/-- C3 (code evidence): assigning the empty list to `endpoints` does not
raise; the setter's `if value else None` treats the empty list as falsy and
silently overwrites the stored endpoints with None. -/
theorem endpoints_setter_empty_list_silently_clears (c : SDXClient) :
    set_endpoints c (some []) = .ok { c with endpoints := Option.none } := rfl

/-- C7 (code evidence): when update_l2vpn's HTTP call times out, the raised
SDXException was constructed with the timeout text as the positional
`status_code` argument, so its `message` attribute resolves to the empty
string instead of carrying the timeout text. -/
theorem update_l2vpn_timeout_empty_message (c : SDXClient) (sid : String)
    (nm eps d nt sch q : PyVal) :
    update_l2vpn c sid
        { state := Option.none, name := nm, endpoints := eps, description := d,
          notifications := nt, scheduling := sch, qos_metrics := q } .timeout =
      .error (.sdxError
        { status_code := PyVal.str "The request to create the L2VPN timed out.",
          method_messages := Option.none, message := some "" }) := rfl

/-- C5 (counterexample): with no message supplied, a method_messages table
supplied, and a status code absent from the table, the resolved message is
Python None (not the empty string) and the textual form is "None". -/
theorem sdx_exception_lookup_miss_counterexample :
    (mkSDXException (PyVal.int 500) (some [((404 : Int), "L2VPN Service ID not found")])
        Option.none).message ≠ some "" ∧
    excText (mkSDXException (PyVal.int 500) (some [((404 : Int), "L2VPN Service ID not found")])
        Option.none) ≠ "" := by
  decide

/-- C5 (amended): the resolution is by Python truthiness: a supplied
non-empty message is used verbatim; an absent (or empty) message with a
non-empty method_messages table resolves to the table lookup of status_code,
which is None (not the empty string) when the key is missing; only with no
(or an empty) table is the message the empty string.  The textual form is
exactly the string form of the resolved message, with no "Error <code>"
prefix. -/
theorem sdx_exception_message_resolution (sc : PyVal)
    (mm : Option (List (Int × String))) (msg : Option String) :
    (∀ s, msg = some s → s.isEmpty = false → (mkSDXException sc mm msg).message = some s) ∧
    (optStrTruthy msg = false → ∀ t, mm = some t → t ≠ [] →
        (mkSDXException sc mm msg).message = tableGet t sc) ∧
    (optStrTruthy msg = false → ∀ t n, mm = some t → t ≠ [] → sc = PyVal.int n →
        (mkSDXException sc mm msg).message = t.lookup n) ∧
    (optStrTruthy msg = false → optTableTruthy mm = false →
        (mkSDXException sc mm msg).message = some "") ∧
    (∀ s, (mkSDXException sc mm msg).message = some s →
        excText (mkSDXException sc mm msg) = s) ∧
    ((mkSDXException sc mm msg).message = Option.none →
        excText (mkSDXException sc mm msg) = "None") := by
  refine ⟨?_, ?_, ?_, ?_, ?_, ?_⟩
  · intro s hs he
    subst hs
    simp [mkSDXException, optStrTruthy, he]
  · intro h t ht htne
    subst ht
    have hne : t.isEmpty = false := by
      cases t with
      | nil => exact absurd rfl htne
      | cons a l => rfl
    simp [mkSDXException, h, optTableTruthy, hne]
  · intro h t n ht htne hsc
    subst ht
    subst hsc
    have hne : t.isEmpty = false := by
      cases t with
      | nil => exact absurd rfl htne
      | cons a l => rfl
    simp [mkSDXException, h, optTableTruthy, hne, tableGet]
  · intro h1 h2
    simp [mkSDXException, h1, h2]
  · intro s hs
    simp [excText, hs]
  · intro h
    simp [excText, h]

/-- C5 (witness): message absent, table supplied, key present. -/
theorem sdx_exception_message_resolution_witness :
    (mkSDXException (PyVal.int 404) (some [((404 : Int), "Not Found")])
        Option.none).message = List.lookup (404 : Int) [((404 : Int), "Not Found")] :=
  (sdx_exception_message_resolution (PyVal.int 404)
    (some [((404 : Int), "Not Found")]) Option.none).2.2.1 rfl
    [((404 : Int), "Not Found")] 404 rfl (by decide) rfl

/-- C6 (counterexample): an in-table status (404) whose response body carries
a description raises with the description, not with the table's
"L2VPN Service ID provided does not exist". -/
theorem delete_l2vpn_table_counterexample :
    delete_l2vpn clientA "abc" (DelNet.httpError 404 (some "Service ID not found")) =
      .error (.sdxError
        { status_code := PyVal.int 404, method_messages := some deleteTable,
          message := some "Service ID not found" }) ∧
    ("Service ID not found" : String) ≠ "L2VPN Service ID provided does not exist" :=
  ⟨rfl, by decide⟩

/-- C6 (amended): delete_l2vpn passes the server-supplied description (or
"Unknown error" when absent) as the explicit message, so the raised error's
message is that description regardless of the status code; the fixed table is
only carried in method_messages and is consulted only when the description
resolves falsy (the empty string). -/
theorem delete_l2vpn_message_from_description (c : SDXClient) (sid : String)
    (code : Int) (d : Option String) :
    (∀ s, d = some s → s.isEmpty = false →
        delete_l2vpn c sid (.httpError code d) =
          .error (.sdxError
            { status_code := PyVal.int code, method_messages := some deleteTable,
              message := some s })) ∧
    (d = Option.none →
        delete_l2vpn c sid (.httpError code d) =
          .error (.sdxError
            { status_code := PyVal.int code, method_messages := some deleteTable,
              message := some "Unknown error" })) ∧
    (d = some "" →
        delete_l2vpn c sid (.httpError code d) =
          .error (.sdxError
            { status_code := PyVal.int code, method_messages := some deleteTable,
              message := deleteTable.lookup code })) := by
  refine ⟨?_, ?_, ?_⟩
  · intro s hs he
    subst hs
    simp [delete_l2vpn, mkSDXException, optStrTruthy, optTableTruthy, he, tableGet]
  · intro h
    subst h
    rfl
  · intro h
    subst h
    rfl

/-- C6 (witness): an out-of-table status with a description present. -/
theorem delete_l2vpn_message_from_description_witness :
    delete_l2vpn clientA "abc" (.httpError 500 (some "boom")) =
      .error (.sdxError
        { status_code := PyVal.int 500, method_messages := some deleteTable,
          message := some "boom" }) :=
  (delete_l2vpn_message_from_description clientA "abc" 500 (some "boom")).1 "boom" rfl rfl

/-- C8 (counterexample): parsing a non-mapping raises TypeError (the
InvalidType category), not the InvalidInput (ValueError) category the claim
names. -/
theorem parse_response_typeerror_counterexample :
    parseSDXResponse (PyVal.str "invalid_json") ≠
      .error (.valueError "Expected a dictionary response_json.") ∧
    parseSDXResponse (PyVal.str "invalid_json") =
      .error (.typeError "Expected a dictionary response_json.") :=
  ⟨(fun h => nomatch h), rfl⟩

/-- C8 (amended): parsing any non-mapping fails with a TypeError carrying
exactly "Expected a dictionary response_json.", while parsing any mapping
succeeds, each attribute holding the value under its key and PyVal.none
(Python None) when the key is absent — no missing key ever raises. -/
theorem parse_response_total (v : PyVal) :
    ((∀ entries, v ≠ PyVal.dict entries) →
        parseSDXResponse v = .error (.typeError "Expected a dictionary response_json.")) ∧
    (∀ entries, v = PyVal.dict entries →
        ∃ r, parseSDXResponse v = .ok r ∧
          ∀ p ∈ responseFields r, p.2 = (entries.lookup p.1).getD PyVal.none) := by
  constructor
  · cases v <;> intro h <;> first | rfl | exact absurd rfl (h _)
  · intro entries hv
    subst hv
    refine ⟨_, rfl, ?_⟩
    intro p hp
    fin_cases hp <;> rfl

/-- C8 (witness): a mapping carrying only service_id parses with every other
field absent. -/
theorem parse_response_total_witness :
    ∃ r, parseSDXResponse (PyVal.dict [("service_id", PyVal.str "X")]) = .ok r ∧
      ∀ p ∈ responseFields r,
        p.2 = (List.lookup p.1 [("service_id", PyVal.str "X")]).getD PyVal.none :=
  (parse_response_total (PyVal.dict [("service_id", PyVal.str "X")])).2
    [("service_id", PyVal.str "X")] rfl

/-- C9 (counterexample): assigning Python None to `name` is accepted (the
setter starts with `if value is not None and ...`), although None is not a
string, so the claim's "every value that is not a string fails" is false. -/
theorem set_name_none_counterexample :
    set_name clientA PyVal.none = .ok { clientA with name := Option.none } ∧
    set_name clientA PyVal.none ≠ .error (.valueError nameMsg) :=
  ⟨rfl, fun h => nomatch h⟩

/-- C9 (amended): assigning name fails with exactly
"Name must be a non-empty string with maximum 50 characters." for every
non-None value that is not a string, every string blank after strip(), and
every string longer than 50 characters; assigning None succeeds and stores
None; a non-blank string of exactly 50 characters is accepted and stored
unchanged. -/
theorem set_name_validation (c : SDXClient) (v : PyVal) :
    (v ≠ PyVal.none → (∀ s, v ≠ PyVal.str s) →
        set_name c v = .error (.valueError nameMsg)) ∧
    (∀ s, v = PyVal.str s → (pyStrip s).isEmpty = true →
        set_name c v = .error (.valueError nameMsg)) ∧
    (∀ s, v = PyVal.str s → 50 < s.length →
        set_name c v = .error (.valueError nameMsg)) ∧
    (v = PyVal.none → set_name c v = .ok { c with name := Option.none }) ∧
    (∀ s, v = PyVal.str s → (pyStrip s).isEmpty = false → s.length = 50 →
        set_name c v = .ok { c with name := some s }) := by
  refine ⟨?_, ?_, ?_, ?_, ?_⟩
  · intro h1 h2
    cases v <;> first | exact absurd rfl h1 | exact absurd rfl (h2 _) | rfl
  · intro s hs hblank
    subst hs
    simp [set_name, hblank]
  · intro s hs hlong
    subst hs
    simp [set_name, hlong]
  · intro h
    subst h
    rfl
  · intro s hs hblank hlen
    subst hs
    simp [set_name, hblank, hlen]

/-- C9 (witness): a non-blank 50-character name is stored unchanged. -/
theorem set_name_validation_witness :
    set_name clientA (PyVal.str name50) = .ok { clientA with name := some name50 } :=
  (set_name_validation clientA (PyVal.str name50)).2.2.2.2 name50 rfl (by decide) (by decide)

/-- C10: the constructor validates only the notifications argument; every
other argument is stored verbatim, so construction succeeds with a
51-character name and a one-element endpoint list, both of which the
attribute setters reject; an invalid notifications argument, by contrast,
fails at construction. -/
theorem constructor_validates_only_notifications :
    (∀ b n e d sch q, mkSDXClient b n e d Option.none sch q =
        .ok { base_url := b, name := n, endpoints := e, description := d,
              notifications := Option.none, scheduling := sch, qos_metrics := q,
              request_cache := [] }) ∧
    (mkSDXClient (some "http://example.com") (some name51) (some [epA])
        Option.none Option.none PyVal.none PyVal.none = .ok client51 ∧
      set_name client51 (PyVal.str name51) = .error (.valueError nameMsg) ∧
      set_endpoints client51 (some [epA]) =
        .error (.valueError "Endpoints must contain at least 2 entries.")) ∧
    mkSDXClient (some "http://example.com") (some "Test") (some [epA, epB])
        Option.none (some notif11) PyVal.none PyVal.none =
      .error (.valueError "Notifications can contain at most 10 email addresses.") := by
  exact ⟨fun b n e d sch q => rfl, ⟨rfl, rfl, rfl⟩, rfl⟩

/-- C1: for a client whose base_url, name and endpoints are set and whose
cache has no entry for its key, a first successful create — one whose 2xx
body carries the `service_id` key the success log subscripts — stores
(payload, result) under (name, tuple of port_ids) and issues one POST, and a
second call returns the cached result with no POST and no state change —
one POST in total, both calls returning the same value. -/
theorem create_l2vpn_cache_single_post (c : SDXClient) (body : PyVal) (net2 : NetOutcome)
    (sid : PyVal)
    (hb : optStrTruthy c.base_url = true) (hn : optStrTruthy c.name = true)
    (he : optListTruthy c.endpoints = true)
    (hmiss : List.lookup (createCacheKey c) c.request_cache = Option.none)
    (hsid : pySubscriptStr body "service_id" = .ok sid) :
    (create_l2vpn c (.success body)).1 = .ok body ∧
    (create_l2vpn c (.success body)).2.2 = 1 ∧
    List.lookup (createCacheKey c) (create_l2vpn c (.success body)).2.1.request_cache =
      some (createPayload c, body) ∧
    (create_l2vpn (create_l2vpn c (.success body)).2.1 net2).1 = .ok body ∧
    (create_l2vpn (create_l2vpn c (.success body)).2.1 net2).2.1 =
      (create_l2vpn c (.success body)).2.1 ∧
    (create_l2vpn (create_l2vpn c (.success body)).2.1 net2).2.2 = 0 ∧
    (create_l2vpn c (.success body)).2.2 +
      (create_l2vpn (create_l2vpn c (.success body)).2.1 net2).2.2 = 1 := by
  have h1 : create_l2vpn c (.success body) =
      (.ok body,
        { c with request_cache :=
            cacheInsert c.request_cache (createCacheKey c) (createPayload c, body) }, 1) := by
    simp [create_l2vpn, hb, hn, he, hmiss, hsid]
  have h2 : create_l2vpn
      { c with request_cache :=
          cacheInsert c.request_cache (createCacheKey c) (createPayload c, body) } net2 =
      (.ok body,
        { c with request_cache :=
            cacheInsert c.request_cache (createCacheKey c) (createPayload c, body) }, 0) := by
    simp [create_l2vpn, hb, hn, he, cacheInsert, createCacheKey, List.lookup]
  rw [h1]
  refine ⟨rfl, rfl, ?_, ?_, ?_, ?_, ?_⟩
  · simp [cacheInsert, List.lookup]
  · rw [h2]
  · rw [h2]
  · rw [h2]
  · rw [h2]
    rfl

/-- C1 (witness): the fixture client with a concrete 2xx body. -/
theorem create_l2vpn_cache_single_post_witness :
    (create_l2vpn clientA (.success (PyVal.dict [("service_id", PyVal.str "123")]))).1 =
      .ok (PyVal.dict [("service_id", PyVal.str "123")]) ∧
    (create_l2vpn clientA (.success (PyVal.dict [("service_id", PyVal.str "123")]))).2.2 = 1 ∧
    List.lookup (createCacheKey clientA)
        (create_l2vpn clientA
          (.success (PyVal.dict [("service_id", PyVal.str "123")]))).2.1.request_cache =
      some (createPayload clientA, PyVal.dict [("service_id", PyVal.str "123")]) ∧
    (create_l2vpn
        (create_l2vpn clientA (.success (PyVal.dict [("service_id", PyVal.str "123")]))).2.1
        .timeout).1 =
      .ok (PyVal.dict [("service_id", PyVal.str "123")]) ∧
    (create_l2vpn
        (create_l2vpn clientA (.success (PyVal.dict [("service_id", PyVal.str "123")]))).2.1
        .timeout).2.1 =
      (create_l2vpn clientA (.success (PyVal.dict [("service_id", PyVal.str "123")]))).2.1 ∧
    (create_l2vpn
        (create_l2vpn clientA (.success (PyVal.dict [("service_id", PyVal.str "123")]))).2.1
        .timeout).2.2 = 0 ∧
    (create_l2vpn clientA (.success (PyVal.dict [("service_id", PyVal.str "123")]))).2.2 +
      (create_l2vpn
        (create_l2vpn clientA (.success (PyVal.dict [("service_id", PyVal.str "123")]))).2.1
        .timeout).2.2 = 1 :=
  create_l2vpn_cache_single_post clientA (PyVal.dict [("service_id", PyVal.str "123")])
    .timeout (PyVal.str "123") rfl rfl rfl rfl rfl

/-- Helper: a decimal digit is not Python whitespace. -/
theorem isDigit_not_pyspace {c : Char} (h : c.isDigit = true) : isPySpace c = false := by
  simp only [isPySpace, Bool.or_eq_false_iff, beq_eq_false_iff_ne, ne_eq]
  refine ⟨⟨⟨⟨⟨?_, ?_⟩, ?_⟩, ?_⟩, ?_⟩, ?_⟩ <;> (rintro rfl; exact absurd h (by decide))

/-- Helper: dropWhile is the identity when the predicate holds nowhere. -/
theorem dropWhile_all_false {α : Type} (p : α → Bool) (l : List α)
    (h : ∀ x ∈ l, p x = false) : l.dropWhile p = l := by
  cases l with
  | nil => rfl
  | cons a t => simp [List.dropWhile_cons, h a (List.mem_cons_self a t)]

/-- Helper: stripping whitespace from an all-digit string is the identity. -/
theorem stripChars_all_digits (l : List Char) (h : l.all Char.isDigit = true) :
    stripChars l = l := by
  have h' : ∀ x ∈ l, isPySpace x = false := fun x hx =>
    isDigit_not_pyspace (List.all_eq_true.mp h x hx)
  simp only [stripChars]
  rw [dropWhile_all_false _ _ h',
    dropWhile_all_false _ _ (fun x hx => h' x (List.mem_reverse.mp hx)),
    List.reverse_reverse]

/-- Helper: int() succeeds on a nonempty digit string and returns its value. -/
theorem pyIntChars_digits (l : List Char) (h1 : l ≠ []) (h2 : l.all Char.isDigit = true) :
    pyIntChars l = some (natOfDigits l : Int) := by
  have hs : stripChars l = l := stripChars_all_digits l h2
  cases l with
  | nil => exact absurd rfl h1
  | cons c t =>
    have hc : c.isDigit = true := List.all_eq_true.mp h2 c (List.mem_cons_self c t)
    have hminus : ¬((c :: t : List Char).head? = some '-') := by
      intro heq
      have hce : c = '-' := by simpa using heq
      subst hce
      exact absurd hc (by decide)
    have hplus : ¬((c :: t : List Char).head? = some '+') := by
      intro heq
      have hce : c = '+' := by simpa using heq
      subst hce
      exact absurd hc (by decide)
    simp only [pyIntChars, hs]
    rw [if_neg hminus, if_neg hplus, if_pos (by simp [h2])]

/-- Helper: all-digit strings contain no colon. -/
theorem all_digits_no_colon {l : List Char} (h : l.all Char.isDigit = true) :
    ∀ c ∈ l, c ≠ ':' := by
  intro c hc
  have hd := List.all_eq_true.mp h c hc
  rintro rfl
  exact absurd hd (by decide)

/-- Helper: splitting a colon-free string yields one piece. -/
theorem splitOnColon_no_colon (l : List Char) (h : ∀ c ∈ l, c ≠ ':') :
    splitOnColon l = [l] := by
  induction l with
  | nil => rfl
  | cons c t ih =>
    rw [splitOnColon, if_neg (h c (List.mem_cons_self c t)),
      ih (fun x hx => h x (List.mem_cons_of_mem c hx))]

/-- Helper: splitting past a colon-free prefix. -/
theorem splitOnColon_append (xs ys : List Char) (h : ∀ c ∈ xs, c ≠ ':') :
    splitOnColon (xs ++ ':' :: ys) = xs :: splitOnColon ys := by
  induction xs with
  | nil => simp [splitOnColon]
  | cons x t ih =>
    rw [List.cons_append, splitOnColon, if_neg (h x (List.mem_cons_self x t)),
      ih (fun y hy => h y (List.mem_cons_of_mem x hy))]

/-- C2: for every range-shaped VLAN "ID1:ID2" whose two pieces are digit
strings but whose bounds violate 1 <= ID1 < ID2 <= 4095, endpoint validation
fails with exactly the "Invalid VLAN range format" message (the bounds raise
happens inside the try block whose except clause rewrites it), not a distinct
out-of-bounds message. -/
theorem range_vlan_bounds_reported_as_format (pid : String) (a b : List Char)
    (hpid1 : pid ≠ "") (hpid2 : matchPortId pid = true)
    (ha1 : a ≠ []) (ha2 : a.all Char.isDigit = true)
    (hb1 : b ≠ []) (hb2 : b.all Char.isDigit = true)
    (hbounds : ¬(1 ≤ natOfDigits a ∧ natOfDigits a < natOfDigits b ∧
        natOfDigits b ≤ 4095)) :
    validate_endpoint_dict { port_id := pid, vlan := String.mk (a ++ ':' :: b) } =
      .error (.valueError ("Invalid VLAN range format: '" ++
        String.mk (a ++ ':' :: b) ++ "'. Must be 'VLAN ID1:VLAN ID2'.")) := by
  have hcolon_mem : ':' ∈ a ++ ':' :: b :=
    List.mem_append_right a (List.mem_cons_self ':' b)
  have hvne : String.mk (a ++ ':' :: b) ≠ "" := by
    intro h
    have hd := congrArg String.data h
    simp at hd
  have hspec : ¬(String.mk (a ++ ':' :: b) ∈ specialVlans) := by
    intro hmem
    simp only [specialVlans, List.mem_cons, List.not_mem_nil, or_false] at hmem
    rcases hmem with h | h | h <;>
      (have hd := congrArg String.data h
       rw [show String.data (String.mk (a ++ ':' :: b)) = a ++ ':' :: b from rfl] at hd
       rw [hd] at hcolon_mem
       exact absurd hcolon_mem (by decide))
  have hcdig : (':' : Char).isDigit = false := by decide
  have hdig : pyIsDigit (String.mk (a ++ ':' :: b)) = false := by
    simp [pyIsDigit, List.all_append, List.all_cons, hcdig]
  have hcol : containsColon (String.mk (a ++ ':' :: b)) = true := by
    simp [containsColon, List.any_append, List.any_cons]
  have hsplit : splitOnColon (String.mk (a ++ ':' :: b)).data = [a, b] := by
    rw [show (String.mk (a ++ ':' :: b)).data = a ++ ':' :: b from rfl,
      splitOnColon_append a b (all_digits_no_colon ha2),
      splitOnColon_no_colon b (all_digits_no_colon hb2)]
  have hia : pyIntChars a = some (natOfDigits a : Int) := pyIntChars_digits a ha1 ha2
  have hib : pyIntChars b = some (natOfDigits b : Int) := pyIntChars_digits b hb1 hb2
  have hboundsInt : ¬(1 ≤ (natOfDigits a : Int) ∧ (natOfDigits a : Int) < (natOfDigits b : Int) ∧
      (natOfDigits b : Int) ≤ 4095) := by
    rintro ⟨x, y, z⟩
    exact hbounds ⟨by exact_mod_cast x, by exact_mod_cast y, by exact_mod_cast z⟩
  have hvv : validateVlan (String.mk (a ++ ':' :: b)) =
      .error (.valueError (rangeFormatMsg (String.mk (a ++ ':' :: b)))) := by
    unfold validateVlan
    rw [if_neg hspec, if_neg (by simp [hdig]), if_pos hcol]
    simp only [hsplit]
    rw [if_neg (by simp)]
    simp only [vlanRangeTry, hia, hib]
    rw [if_neg hboundsInt]
  unfold validate_endpoint_dict
  rw [if_neg hpid1, if_neg (by simp [hpid2]), if_neg hvne, hvv]
  rfl

/-- C2 (witness): the reversed-bounds range "200:100". -/
theorem range_vlan_bounds_reported_as_format_witness :
    validate_endpoint_dict { port_id := "urn:sdx:port:a:b:c", vlan := "200:100" } =
      .error (.valueError
        "Invalid VLAN range format: '200:100'. Must be 'VLAN ID1:VLAN ID2'.") :=
  range_vlan_bounds_reported_as_format "urn:sdx:port:a:b:c"
    ['2', '0', '0'] ['1', '0', '0'] (by decide) rfl (by decide) rfl (by decide) rfl
    (by decide)

/-- Helper: membership in a Python-set insertion. -/
theorem setAdd_mem (s : List String) (x y : String) :
    y ∈ setAdd s x ↔ (y ∈ s ∨ y = x) := by
  unfold setAdd
  split_ifs with h
  · constructor
    · exact fun hy => Or.inl hy
    · rintro (hy | rfl)
      · exact hy
      · exact h
  · simp [List.mem_cons, or_comm]

/-- Helper: a Python-set insertion never shrinks the set. -/
theorem setAdd_len (s : List String) (x : String) :
    s.length ≤ (setAdd s x).length := by
  unfold setAdd
  split_ifs with h
  · exact le_refl _
  · exact Nat.le_succ _

/-- Helper: the Boolean special-VLAN test agrees with list membership. -/
theorem isSpecialV_iff (v : String) : isSpecialV v = true ↔ v ∈ specialVlans := by
  simp [isSpecialV, isAnyUntaggedV, isAllV, specialVlans]
  tauto

/-- Helper: classification step and the has_vlan_range flag. -/
theorem classify_has_vlan_range (st : VSt) (v : String) :
    (classify st v).has_vlan_range = (st.has_vlan_range || isRangeV v) := by
  have hiff := isSpecialV_iff v
  unfold classify
  split_ifs with h1 h2 h3 h4
  · simp [isRangeV, hiff.mpr h1]
  · simp [isRangeV, hiff.mpr h1]
  · simp [isRangeV, h3]
  · have hsp : isSpecialV v = false := by
      cases hq : isSpecialV v
      · rfl
      · exact absurd (hiff.mp hq) h1
    simp [isRangeV, hsp, h3, h4]
  · have h4' : containsColon v = false := by
      cases hq : containsColon v
      · rfl
      · exact absurd hq h4
    simp [isRangeV, h4']

/-- Helper: classification step and the has_single_vlan flag. -/
theorem classify_has_single_vlan (st : VSt) (v : String) :
    (classify st v).has_single_vlan = (st.has_single_vlan || isDigitV v) := by
  have hiff := isSpecialV_iff v
  unfold classify
  split_ifs with h1 h2 h3 h4
  · simp [isDigitV, hiff.mpr h1]
  · simp [isDigitV, hiff.mpr h1]
  · have hsp : isSpecialV v = false := by
      cases hq : isSpecialV v
      · rfl
      · exact absurd (hiff.mp hq) h1
    simp [isDigitV, hsp, h3]
  · simp [isDigitV, h3]
  · simp [isDigitV, h3]

/-- Helper: classification step and the has_special_vlan flag (set by "all"). -/
theorem classify_has_special_vlan (st : VSt) (v : String) :
    (classify st v).has_special_vlan = (st.has_special_vlan || isAllV v) := by
  have hiff := isSpecialV_iff v
  unfold classify
  split_ifs with h1 h2 h3 h4
  · have hne : isAllV v = false := by
      rcases h2 with rfl | rfl <;> rfl
    simp [hne]
  · have hall : v = "all" := by
      have := hiff.mpr h1
      simp [isSpecialV, isAnyUntaggedV, isAllV] at this
      rcases this with (h | h) | h
      · exact absurd (Or.inl h) h2
      · exact absurd (Or.inr h) h2
      · exact h
    simp [isAllV, hall]
  · have hne : isAllV v = false := by
      cases hq : isAllV v
      · rfl
      · have : v = "all" := by simpa [isAllV] using hq
        exact absurd (this ▸ (by decide : ("all" : String) ∈ specialVlans)) h1
    simp [hne]
  · have hne : isAllV v = false := by
      cases hq : isAllV v
      · rfl
      · have : v = "all" := by simpa [isAllV] using hq
        exact absurd (this ▸ (by decide : ("all" : String) ∈ specialVlans)) h1
    simp [hne]
  · have hne : isAllV v = false := by
      cases hq : isAllV v
      · rfl
      · have : v = "all" := by simpa [isAllV] using hq
        exact absurd (this ▸ (by decide : ("all" : String) ∈ specialVlans)) h1
    simp [hne]

/-- Helper: classification step and the has_any_untagged flag. -/
theorem classify_has_any_untagged (st : VSt) (v : String) :
    (classify st v).has_any_untagged = (st.has_any_untagged || isAnyUntaggedV v) := by
  unfold classify
  split_ifs with h1 h2 h3 h4
  · have : isAnyUntaggedV v = true := by
      rcases h2 with rfl | rfl <;> rfl
    simp [this]
  · have : isAnyUntaggedV v = false := by
      cases hq : isAnyUntaggedV v
      · rfl
      · have := by simpa [isAnyUntaggedV] using hq
        exact absurd this h2
    simp [this]
  · have : isAnyUntaggedV v = false := by
      cases hq : isAnyUntaggedV v
      · rfl
      · have hv : v = "any" ∨ v = "untagged" := by simpa [isAnyUntaggedV] using hq
        have : v ∈ specialVlans := by
          rcases hv with rfl | rfl <;> decide
        exact absurd this h1
    simp [this]
  · have : isAnyUntaggedV v = false := by
      cases hq : isAnyUntaggedV v
      · rfl
      · have hv : v = "any" ∨ v = "untagged" := by simpa [isAnyUntaggedV] using hq
        have : v ∈ specialVlans := by
          rcases hv with rfl | rfl <;> decide
        exact absurd this h1
    simp [this]
  · have : isAnyUntaggedV v = false := by
      cases hq : isAnyUntaggedV v
      · rfl
      · have hv : v = "any" ∨ v = "untagged" := by simpa [isAnyUntaggedV] using hq
        have : v ∈ specialVlans := by
          rcases hv with rfl | rfl <;> decide
        exact absurd this h1
    simp [this]

/-- Helper: the special categories cover a special VLAN. -/
theorem isCollectedV_of_special {v : String} (h : v ∈ specialVlans) :
    isCollectedV v = true := by
  simp [isCollectedV, (isSpecialV_iff v).mpr h]

/-- Helper: membership in the vlans set after one classification step. -/
theorem classify_vlans_mem (st : VSt) (v x : String) :
    x ∈ (classify st v).vlans ↔ (x ∈ st.vlans ∨ (isCollectedV v = true ∧ x = v)) := by
  have hiff := isSpecialV_iff v
  unfold classify
  split_ifs with h1 h2 h3 h4
  · simp [setAdd_mem, isCollectedV_of_special h1]
  · simp [setAdd_mem, isCollectedV_of_special h1]
  · have hsp : isSpecialV v = false := by
      cases hq : isSpecialV v
      · rfl
      · exact absurd (hiff.mp hq) h1
    simp [setAdd_mem, isCollectedV, isDigitV, hsp, h3]
  · have hsp : isSpecialV v = false := by
      cases hq : isSpecialV v
      · rfl
      · exact absurd (hiff.mp hq) h1
    simp [isCollectedV, isDigitV, hsp, h3]
  · have hsp : isSpecialV v = false := by
      cases hq : isSpecialV v
      · rfl
      · exact absurd (hiff.mp hq) h1
    simp [isCollectedV, isDigitV, hsp, h3]

/-- Helper: membership in the vlan_ranges set after one classification step. -/
theorem classify_ranges_mem (st : VSt) (v x : String) :
    x ∈ (classify st v).vlan_ranges ↔
      (x ∈ st.vlan_ranges ∨ (isRangeV v = true ∧ x = v)) := by
  have hiff := isSpecialV_iff v
  unfold classify
  split_ifs with h1 h2 h3 h4
  · simp [isRangeV, hiff.mpr h1]
  · simp [isRangeV, hiff.mpr h1]
  · simp [isRangeV, h3]
  · have hsp : isSpecialV v = false := by
      cases hq : isSpecialV v
      · rfl
      · exact absurd (hiff.mp hq) h1
    simp [setAdd_mem, isRangeV, hsp, h3, h4]
  · have h4' : containsColon v = false := by
      cases hq : containsColon v
      · rfl
      · exact absurd hq h4
    simp [isRangeV, h4']

/-- Helper: the vlans set never shrinks across a classification step. -/
theorem classify_vlans_len (st : VSt) (v : String) :
    st.vlans.length ≤ (classify st v).vlans.length := by
  unfold classify
  split_ifs <;> first | exact setAdd_len _ _ | exact le_refl _

/-- Helper: the vlan_ranges set never shrinks across a classification step. -/
theorem classify_ranges_len (st : VSt) (v : String) :
    st.vlan_ranges.length ≤ (classify st v).vlan_ranges.length := by
  unfold classify
  split_ifs <;> first | exact setAdd_len _ _ | exact le_refl _

/-- Helper: the final has_vlan_range flag records whether any endpoint's VLAN
is range-shaped. -/
theorem foldVSt_has_vlan_range (l : List Endpoint) : ∀ st : VSt,
    (foldVSt st l).has_vlan_range =
      (st.has_vlan_range || l.any (fun e => isRangeV e.vlan)) := by
  induction l with
  | nil => intro st; simp [foldVSt]
  | cons e t ih =>
    intro st
    have hstep : foldVSt st (e :: t) = foldVSt (classify st e.vlan) t := rfl
    rw [hstep, ih, classify_has_vlan_range]
    simp [List.any_cons, Bool.or_assoc]

/-- Helper: the final has_single_vlan flag records whether any endpoint's
VLAN is a digit string. -/
theorem foldVSt_has_single_vlan (l : List Endpoint) : ∀ st : VSt,
    (foldVSt st l).has_single_vlan =
      (st.has_single_vlan || l.any (fun e => isDigitV e.vlan)) := by
  induction l with
  | nil => intro st; simp [foldVSt]
  | cons e t ih =>
    intro st
    have hstep : foldVSt st (e :: t) = foldVSt (classify st e.vlan) t := rfl
    rw [hstep, ih, classify_has_single_vlan]
    simp [List.any_cons, Bool.or_assoc]

/-- Helper: the final has_special_vlan flag records whether any endpoint's
VLAN is "all". -/
theorem foldVSt_has_special_vlan (l : List Endpoint) : ∀ st : VSt,
    (foldVSt st l).has_special_vlan =
      (st.has_special_vlan || l.any (fun e => isAllV e.vlan)) := by
  induction l with
  | nil => intro st; simp [foldVSt]
  | cons e t ih =>
    intro st
    have hstep : foldVSt st (e :: t) = foldVSt (classify st e.vlan) t := rfl
    rw [hstep, ih, classify_has_special_vlan]
    simp [List.any_cons, Bool.or_assoc]

/-- Helper: the final has_any_untagged flag records whether any endpoint's
VLAN is "any" or "untagged". -/
theorem foldVSt_has_any_untagged (l : List Endpoint) : ∀ st : VSt,
    (foldVSt st l).has_any_untagged =
      (st.has_any_untagged || l.any (fun e => isAnyUntaggedV e.vlan)) := by
  induction l with
  | nil => intro st; simp [foldVSt]
  | cons e t ih =>
    intro st
    have hstep : foldVSt st (e :: t) = foldVSt (classify st e.vlan) t := rfl
    rw [hstep, ih, classify_has_any_untagged]
    simp [List.any_cons, Bool.or_assoc]

/-- Helper: membership in the final vlans set. -/
theorem foldVSt_vlans_mem (l : List Endpoint) : ∀ (st : VSt) (x : String),
    x ∈ (foldVSt st l).vlans ↔
      (x ∈ st.vlans ∨ ∃ e ∈ l, isCollectedV e.vlan = true ∧ x = e.vlan) := by
  induction l with
  | nil => intro st x; simp [foldVSt]
  | cons e t ih =>
    intro st x
    have hstep : foldVSt st (e :: t) = foldVSt (classify st e.vlan) t := rfl
    rw [hstep, ih, classify_vlans_mem]
    constructor
    · rintro ((h | h) | ⟨f, hf, hcf, hx⟩)
      · exact Or.inl h
      · exact Or.inr ⟨e, List.mem_cons_self e t, h.1, h.2⟩
      · exact Or.inr ⟨f, List.mem_cons_of_mem e hf, hcf, hx⟩
    · rintro (h | ⟨f, hf, hcf, hx⟩)
      · exact Or.inl (Or.inl h)
      · rcases List.mem_cons.mp hf with rfl | hf'
        · exact Or.inl (Or.inr ⟨hcf, hx⟩)
        · exact Or.inr ⟨f, hf', hcf, hx⟩

/-- Helper: membership in the final vlan_ranges set. -/
theorem foldVSt_ranges_mem (l : List Endpoint) : ∀ (st : VSt) (x : String),
    x ∈ (foldVSt st l).vlan_ranges ↔
      (x ∈ st.vlan_ranges ∨ ∃ e ∈ l, isRangeV e.vlan = true ∧ x = e.vlan) := by
  induction l with
  | nil => intro st x; simp [foldVSt]
  | cons e t ih =>
    intro st x
    have hstep : foldVSt st (e :: t) = foldVSt (classify st e.vlan) t := rfl
    rw [hstep, ih, classify_ranges_mem]
    constructor
    · rintro ((h | h) | ⟨f, hf, hcf, hx⟩)
      · exact Or.inl h
      · exact Or.inr ⟨e, List.mem_cons_self e t, h.1, h.2⟩
      · exact Or.inr ⟨f, List.mem_cons_of_mem e hf, hcf, hx⟩
    · rintro (h | ⟨f, hf, hcf, hx⟩)
      · exact Or.inl (Or.inl h)
      · rcases List.mem_cons.mp hf with rfl | hf'
        · exact Or.inl (Or.inr ⟨hcf, hx⟩)
        · exact Or.inr ⟨f, hf', hcf, hx⟩

/-- Helper: one classification step grows the state. -/
theorem stLE_classify (st : VSt) (v : String) : stLE st (classify st v) := by
  refine ⟨?_, ?_, ?_, ?_, classify_vlans_len st v, classify_ranges_len st v⟩
  · intro h
    rw [classify_has_vlan_range, h, Bool.true_or]
  · intro h
    rw [classify_has_single_vlan, h, Bool.true_or]
  · intro h
    rw [classify_has_special_vlan, h, Bool.true_or]
  · intro h
    rw [classify_has_any_untagged, h, Bool.true_or]

/-- Helper: the growth order is transitive. -/
theorem stLE_trans {r s t : VSt} (h1 : stLE r s) (h2 : stLE s t) : stLE r t := by
  obtain ⟨a1, a2, a3, a4, a5, a6⟩ := h1
  obtain ⟨b1, b2, b3, b4, b5, b6⟩ := h2
  exact ⟨fun h => b1 (a1 h), fun h => b2 (a2 h), fun h => b3 (a3 h), fun h => b4 (a4 h),
    le_trans a5 b5, le_trans a6 b6⟩

/-- Helper: running the whole loop grows the state. -/
theorem stLE_foldVSt (l : List Endpoint) : ∀ st : VSt, stLE st (foldVSt st l) := by
  induction l with
  | nil =>
    intro st
    exact ⟨fun h => h, fun h => h, fun h => h, fun h => h, le_refl _, le_refl _⟩
  | cons e t ih =>
    intro st
    exact stLE_trans (stLE_classify st e.vlan) (ih (classify st e.vlan))

/-- Helper: the consistency test is monotone along the growth order. -/
theorem checkVSt_true_mono {s t : VSt} (h : stLE s t) (hs : checkVSt s = true) :
    checkVSt t = true := by
  obtain ⟨f1, f2, f3, f4, l1, l2⟩ := h
  simp only [checkVSt, Bool.or_eq_true, Bool.and_eq_true, decide_eq_true_eq] at hs ⊢
  rcases hs with ⟨hr, hrest⟩ | ⟨hsp, hrest⟩
  · refine Or.inl ⟨f1 hr, ?_⟩
    rcases hrest with ((h | h) | h) | h
    · exact Or.inl (Or.inl (Or.inl (lt_of_lt_of_le h l2)))
    · exact Or.inl (Or.inl (Or.inr (f2 h)))
    · exact Or.inl (Or.inr (f3 h))
    · exact Or.inr (f4 h)
  · refine Or.inr ⟨f3 hsp, ?_⟩
    rcases hrest with (h | h) | h
    · exact Or.inl (Or.inl (lt_of_lt_of_le h l1))
    · exact Or.inl (Or.inr (f2 h))
    · exact Or.inr (f1 h)

/-- Helper: a state below a consistency-respecting state respects the check. -/
theorem checkVSt_false_mono {s t : VSt} (h : stLE s t) (ht : checkVSt t = false) :
    checkVSt s = false := by
  cases hq : checkVSt s
  · rfl
  · rw [checkVSt_true_mono h hq] at ht
    exact absurd ht (by simp)

/-- Helper: when every endpoint validates individually and the final state
passes the consistency check, the loop returns the accumulated endpoints. -/
theorem validateEndpointsGo_ok (l : List Endpoint) : ∀ (st : VSt) (acc : List Endpoint),
    (∀ e ∈ l, validate_endpoint_dict e = .ok e) →
    checkVSt (foldVSt st l) = false →
    validateEndpointsGo st acc l = .ok (acc ++ l) := by
  induction l with
  | nil =>
    intro st acc _ _
    simp [validateEndpointsGo]
  | cons e t ih =>
    intro st acc hval hchk
    have he : validate_endpoint_dict e = .ok e := hval e (List.mem_cons_self e t)
    have hfold : foldVSt st (e :: t) = foldVSt (classify st e.vlan) t := rfl
    rw [hfold] at hchk
    have hchk1 : checkVSt (classify st e.vlan) = false :=
      checkVSt_false_mono (stLE_foldVSt t (classify st e.vlan)) hchk
    rw [validateEndpointsGo, he]
    simp only [hchk1, Bool.false_eq_true, if_false]
    rw [ih (classify st e.vlan) (acc ++ [e])
      (fun f hf => hval f (List.mem_cons_of_mem e hf)) hchk]
    simp

/-- Helper: when every endpoint validates individually but the final state
fails the consistency check (and the start state passed it), the loop raises
the consistency message. -/
theorem validateEndpointsGo_error (l : List Endpoint) : ∀ (st : VSt) (acc : List Endpoint),
    (∀ e ∈ l, validate_endpoint_dict e = .ok e) →
    checkVSt st = false →
    checkVSt (foldVSt st l) = true →
    validateEndpointsGo st acc l = .error (.valueError consistencyMsg) := by
  induction l with
  | nil =>
    intro st acc _ h0 h1
    rw [show foldVSt st [] = st from rfl, h0] at h1
    exact absurd h1 (by simp)
  | cons e t ih =>
    intro st acc hval h0 h1
    have he : validate_endpoint_dict e = .ok e := hval e (List.mem_cons_self e t)
    have hfold : foldVSt st (e :: t) = foldVSt (classify st e.vlan) t := rfl
    rw [hfold] at h1
    rw [validateEndpointsGo, he]
    cases hq : checkVSt (classify st e.vlan)
    · simp only [hq, Bool.false_eq_true, if_false]
      exact ih (classify st e.vlan) (acc ++ [e])
        (fun f hf => hval f (List.mem_cons_of_mem e hf)) hq h1
    · simp only [hq, if_true]

/-- Helper: under individual validity and the length precondition,
`_validate_endpoints` succeeds with the input list exactly when the final
loop state passes the consistency check, and otherwise raises the
consistency message. -/
theorem validate_endpoints_char (l : List Endpoint)
    (hval : ∀ e ∈ l, validate_endpoint_dict e = .ok e) (hlen : 2 ≤ l.length) :
    validate_endpoints (some l) =
      if checkVSt (foldVSt initVSt l) = true then .error (.valueError consistencyMsg)
      else .ok l := by
  have hstep : validate_endpoints (some l) =
      if l.length < 2 then .error (.valueError "Endpoints must contain at least 2 entries.")
      else validateEndpointsGo initVSt [] l := rfl
  rw [hstep, if_neg (by omega)]
  cases hq : checkVSt (foldVSt initVSt l)
  · rw [if_neg (by simp)]
    exact validateEndpointsGo_ok l initVSt [] hval hq
  · rw [if_pos rfl]
    exact validateEndpointsGo_error l initVSt [] hval rfl hq

/-- Helper: a successfully validated endpoint has a successfully validated
VLAN. -/
theorem validate_endpoint_dict_ok_vlan {e e' : Endpoint}
    (h : validate_endpoint_dict e = .ok e') : validateVlan e.vlan = .ok () := by
  unfold validate_endpoint_dict at h
  split_ifs at h
  cases hv : validateVlan e.vlan with
  | ok u =>
    cases u
    rfl
  | error pe =>
    rw [hv] at h
    exact Except.noConfusion h

/-- Helper: a VLAN accepted by validateVlan falls into exactly one of the
four categories the consistency loop distinguishes. -/
theorem validateVlan_ok_cases {v : String} (h : validateVlan v = .ok ()) :
    isAnyUntaggedV v = true ∨ isAllV v = true ∨ isDigitV v = true ∨ isRangeV v = true := by
  have hiff := isSpecialV_iff v
  by_cases h1 : v ∈ specialVlans
  · simp only [specialVlans, List.mem_cons, List.not_mem_nil, or_false] at h1
    rcases h1 with rfl | rfl | rfl
    · exact Or.inl rfl
    · exact Or.inr (Or.inl rfl)
    · exact Or.inl rfl
  · have hsp : isSpecialV v = false := by
      cases hq : isSpecialV v
      · rfl
      · exact absurd (hiff.mp hq) h1
    by_cases h2 : pyIsDigit v = true
    · exact Or.inr (Or.inr (Or.inl (by simp [isDigitV, hsp, h2])))
    · have h2' : pyIsDigit v = false := by
        cases hq : pyIsDigit v
        · rfl
        · exact absurd hq h2
      by_cases h3 : containsColon v = true
      · exact Or.inr (Or.inr (Or.inr (by simp [isRangeV, hsp, h2', h3])))
      · exfalso
        unfold validateVlan at h
        rw [if_neg h1, if_neg h2, if_neg h3] at h
        exact Except.noConfusion h

/-- Helper: a list of length at most one has at most one member. -/
theorem eq_of_mem_of_len_le_one {α : Type} {s : List α} (h : s.length ≤ 1) {x y : α}
    (hx : x ∈ s) (hy : y ∈ s) : x = y := by
  cases s with
  | nil => exact absurd hx (List.not_mem_nil x)
  | cons a t =>
    cases t with
    | nil =>
      rw [List.mem_singleton.mp hx, List.mem_singleton.mp hy]
    | cons b u => simp at h

/-- C4: under individual endpoint validity and the 2-element minimum,
endpoint-list assignment enforces the cross-endpoint VLAN rule: (a) with any
range VLAN present, success forces every endpoint to carry the identical
VLAN string; (b) with "all" present, success forces every endpoint's VLAN to
be exactly "all"; (c) any failure carries exactly the consistency message;
(d) lists mixing only "any", "untagged" and digit VLANs always pass and
return the input list. -/
theorem endpoints_vlan_consistency (l : List Endpoint)
    (hval : ∀ e ∈ l, validate_endpoint_dict e = .ok e) (hlen : 2 ≤ l.length) :
    ((∃ e ∈ l, isRangeV e.vlan = true) → ∀ r, validate_endpoints (some l) = .ok r →
        ∀ e ∈ l, ∀ f ∈ l, e.vlan = f.vlan) ∧
    ((∃ e ∈ l, e.vlan = "all") → ∀ r, validate_endpoints (some l) = .ok r →
        ∀ f ∈ l, f.vlan = "all") ∧
    (∀ pe, validate_endpoints (some l) = .error pe → pe = .valueError consistencyMsg) ∧
    ((∀ e ∈ l, e.vlan = "any" ∨ e.vlan = "untagged" ∨ pyIsDigit e.vlan = true) →
        validate_endpoints (some l) = .ok l) := by
  have hchar := validate_endpoints_char l hval hlen
  have hR : (foldVSt initVSt l).has_vlan_range = (l.any fun e => isRangeV e.vlan) :=
    (foldVSt_has_vlan_range l initVSt).trans rfl
  have hS : (foldVSt initVSt l).has_single_vlan = (l.any fun e => isDigitV e.vlan) :=
    (foldVSt_has_single_vlan l initVSt).trans rfl
  have hSp : (foldVSt initVSt l).has_special_vlan = (l.any fun e => isAllV e.vlan) :=
    (foldVSt_has_special_vlan l initVSt).trans rfl
  have hAU : (foldVSt initVSt l).has_any_untagged = (l.any fun e => isAnyUntaggedV e.vlan) :=
    (foldVSt_has_any_untagged l initVSt).trans rfl
  have hcases : ∀ e ∈ l, isAnyUntaggedV e.vlan = true ∨ isAllV e.vlan = true ∨
      isDigitV e.vlan = true ∨ isRangeV e.vlan = true := fun e he =>
    validateVlan_ok_cases (validate_endpoint_dict_ok_vlan (hval e he))
  have hchkOf : (∃ r, validate_endpoints (some l) = .ok r) →
      checkVSt (foldVSt initVSt l) = false := by
    rintro ⟨r, hok⟩
    cases hq : checkVSt (foldVSt initVSt l) with
    | false => rfl
    | true =>
      rw [hchar, if_pos hq] at hok
      exact Except.noConfusion hok
  refine ⟨?_, ?_, ?_, ?_⟩
  · rintro ⟨e0, he0, hr0⟩ r hok e he f hf
    have hrany : (l.any fun e => isRangeV e.vlan) = true :=
      List.any_eq_true.mpr ⟨e0, he0, hr0⟩
    have hchk2 := hchkOf ⟨r, hok⟩
    unfold checkVSt at hchk2
    rw [hR, hS, hSp, hAU, hrany, Bool.true_and] at hchk2
    simp only [Bool.or_eq_false_iff] at hchk2
    obtain ⟨⟨⟨⟨hlt, hnS⟩, hnSp⟩, hnAU⟩, _⟩ := hchk2
    have hlen1 : (foldVSt initVSt l).vlan_ranges.length ≤ 1 := by
      have := of_decide_eq_false hlt
      omega
    have hrangeAll : ∀ g ∈ l, isRangeV g.vlan = true := by
      intro g hg
      rcases hcases g hg with hcase | hcase | hcase | hcase
      · exfalso
        have hx : (l.any fun e => isAnyUntaggedV e.vlan) = true :=
          List.any_eq_true.mpr ⟨g, hg, hcase⟩
        rw [hx] at hnAU
        exact Bool.noConfusion hnAU
      · exfalso
        have hx : (l.any fun e => isAllV e.vlan) = true :=
          List.any_eq_true.mpr ⟨g, hg, hcase⟩
        rw [hx] at hnSp
        exact Bool.noConfusion hnSp
      · exfalso
        have hx : (l.any fun e => isDigitV e.vlan) = true :=
          List.any_eq_true.mpr ⟨g, hg, hcase⟩
        rw [hx] at hnS
        exact Bool.noConfusion hnS
      · exact hcase
    have hmem : ∀ g ∈ l, g.vlan ∈ (foldVSt initVSt l).vlan_ranges := by
      intro g hg
      rw [foldVSt_ranges_mem]
      exact Or.inr ⟨g, hg, hrangeAll g hg, rfl⟩
    exact eq_of_mem_of_len_le_one hlen1 (hmem e he) (hmem f hf)
  · rintro ⟨e0, he0, hall0⟩ r hok f hf
    have hspany : (l.any fun e => isAllV e.vlan) = true :=
      List.any_eq_true.mpr ⟨e0, he0, by simp [isAllV, hall0]⟩
    have hchk2 := hchkOf ⟨r, hok⟩
    unfold checkVSt at hchk2
    rw [hR, hS, hSp, hAU, hspany, Bool.true_and] at hchk2
    simp only [Bool.or_eq_false_iff] at hchk2
    obtain ⟨_, ⟨⟨hltV, hnS⟩, hnR⟩⟩ := hchk2
    have hlenV : (foldVSt initVSt l).vlans.length ≤ 1 := by
      have := of_decide_eq_false hltV
      omega
    have hmemAll : e0.vlan ∈ (foldVSt initVSt l).vlans := by
      rw [foldVSt_vlans_mem]
      refine Or.inr ⟨e0, he0, ?_, rfl⟩
      rw [hall0]
      decide
    rcases hcases f hf with hcase | hcase | hcase | hcase
    · have hmemF : f.vlan ∈ (foldVSt initVSt l).vlans := by
        rw [foldVSt_vlans_mem]
        refine Or.inr ⟨f, hf, ?_, rfl⟩
        simp [isCollectedV, isSpecialV, hcase]
      rw [eq_of_mem_of_len_le_one hlenV hmemF hmemAll, hall0]
    · simpa [isAllV] using hcase
    · exfalso
      have hx : (l.any fun e => isDigitV e.vlan) = true :=
        List.any_eq_true.mpr ⟨f, hf, hcase⟩
      rw [hx] at hnS
      exact Bool.noConfusion hnS
    · exfalso
      have hx : (l.any fun e => isRangeV e.vlan) = true :=
        List.any_eq_true.mpr ⟨f, hf, hcase⟩
      rw [hx] at hnR
      exact Bool.noConfusion hnR
  · intro pe herr
    rw [hchar] at herr
    cases hq : checkVSt (foldVSt initVSt l) with
    | false =>
      rw [if_neg (by simp [hq])] at herr
      exact Except.noConfusion herr
    | true =>
      rw [if_pos hq] at herr
      exact (Except.error.inj herr).symm
  · intro hmix
    have hnR : (l.any fun e => isRangeV e.vlan) = false := by
      cases hq : l.any fun e => isRangeV e.vlan
      · rfl
      · exfalso
        obtain ⟨g, hg, hgr⟩ := List.any_eq_true.mp hq
        rcases hmix g hg with h | h | h
        · rw [h] at hgr
          exact absurd hgr (by decide)
        · rw [h] at hgr
          exact absurd hgr (by decide)
        · simp [isRangeV, h] at hgr
    have hnSp : (l.any fun e => isAllV e.vlan) = false := by
      cases hq : l.any fun e => isAllV e.vlan
      · rfl
      · exfalso
        obtain ⟨g, hg, hgr⟩ := List.any_eq_true.mp hq
        have hgall : g.vlan = "all" := by simpa [isAllV] using hgr
        rcases hmix g hg with h | h | h
        · rw [h] at hgall
          exact absurd hgall (by decide)
        · rw [h] at hgall
          exact absurd hgall (by decide)
        · rw [hgall] at h
          exact absurd h (by decide)
    have hchk : checkVSt (foldVSt initVSt l) = false := by
      unfold checkVSt
      rw [hR, hSp, hnR, hnSp]
      simp
    rw [hchar, if_neg (by simp [hchk])]

/-- C4 (witness): the two-endpoint digit-VLAN fixture list. -/
theorem endpoints_vlan_consistency_witness :
    ((∃ e ∈ [epA, epB], isRangeV e.vlan = true) →
        ∀ r, validate_endpoints (some [epA, epB]) = .ok r →
          ∀ e ∈ [epA, epB], ∀ f ∈ [epA, epB], e.vlan = f.vlan) ∧
    ((∃ e ∈ [epA, epB], e.vlan = "all") →
        ∀ r, validate_endpoints (some [epA, epB]) = .ok r →
          ∀ f ∈ [epA, epB], f.vlan = "all") ∧
    (∀ pe, validate_endpoints (some [epA, epB]) = .error pe →
        pe = .valueError consistencyMsg) ∧
    ((∀ e ∈ [epA, epB], e.vlan = "any" ∨ e.vlan = "untagged" ∨ pyIsDigit e.vlan = true) →
        validate_endpoints (some [epA, epB]) = .ok [epA, epB]) :=
  endpoints_vlan_consistency [epA, epB]
    (by
      intro e he
      rcases List.mem_cons.mp he with rfl | he2
      · rfl
      · rcases List.mem_cons.mp he2 with rfl | he3
        · rfl
        · exact absurd he3 (List.not_mem_nil e))
    (by decide)
